import Mathlib

/-!
Shallow embedding of the CodeGrind-Bot LeetCode client
(`src/utils/problems.py`) and the properties claimed about it.

Modelling conventions:
* Python strings are `List Char`; Python's `str.find`, slicing with
  negative indices, `str.replace` and the literal/lazy `re.sub` calls of
  `html_to_markdown` are embedded operationally below.
* JSON values are the inductive `Json`; Python subscripting on them
  returns `Except PyErr Json`, raising `keyError` / `typeError` /
  `indexError` exactly where CPython would.  The `try/except ValueError`
  blocks of the source catch only `valueError`, so every other error
  propagates to the caller, as in the source.
* External collaborators that are not part of this repository are
  parameters: `md` stands for `markdownify.markdownify` (generic
  HTML-to-Markdown converter), `litEval` for `ast.literal_eval`,
  `ratings` for `bot.ratings.fetch_rating`, and `score` for
  `utils.common.convert_to_score` (its module is not under `src/`).
* Scanning functions that a regex substitution needs are written with an
  explicit fuel argument equal to the input length so that they are
  structural and reduce by `rfl`/`decide`; each step consumes at least
  one character, so fuel `s.length` is never exhausted early.
* Logging is elided except for `fetch_problems_solved_and_rank`, whose
  claims distinguish the rate-limited / forbidden signals; there the
  emitted log events are part of the result.
-/

namespace CGB

/-- Python exception classes that the response-handling code can raise.
`rateLimited` stands for the source's `RateLimitReached` exception. -/
inductive PyErr where
  | keyError
  | typeError
  | indexError
  | valueError
  | attrError
  | rateLimited
deriving DecidableEq, Repr

/-- JSON values as delivered by `response.json()`.  Floating point
payloads do not occur in any claim, so numbers are integers. -/
inductive Json where
  | null
  | jbool (b : Bool)
  | jint (n : Int)
  | jstr (s : String)
  | jarr (xs : List Json)
  | jobj (fields : List (String × Json))

/-- An HTTP response as the code observes it: its status and the value
`await response.json()` produced.  (A JSON-decode failure of the body
itself would be an `aiohttp` error outside every `try` block and outside
every claim, so the body is always a `Json`.) -/
structure HttpResponse where
  status : Nat
  body : Json

/-- Key lookup in an object's field list (CPython dict access, insertion
order preserved; duplicate keys cannot arise from JSON decoding). -/
def lookupKey (k : String) : List (String × Json) → Option Json
  | [] => none
  | (a, v) :: t => if a = k then some v else lookupKey k t

/-- Python `value[key]` subscripting with a string key. -/
def Json.getKey : Json → String → Except PyErr Json
  | .jobj m, k =>
    match lookupKey k m with
    | some v => .ok v
    | none => .error .keyError
  | .null, _ => .error .typeError
  | _, _ => .error .typeError

/-- Python `value[i]` subscripting with a non-negative integer index. -/
def Json.getIdx : Json → Nat → Except PyErr Json
  | .jarr xs, i =>
    match xs[i]? with
    | some v => .ok v
    | none => .error .indexError
  | .jstr s, i =>
    match s.toList[i]? with
    | some c => .ok (.jstr c.toString)
    | none => .error .indexError
  | _, _ => .error .typeError

/-- Python truthiness of a JSON value. -/
def Json.truthy : Json → Bool
  | .null => false
  | .jbool b => b
  | .jint n => n != 0
  | .jstr s => !(s = "")
  | .jarr xs => !xs.isEmpty
  | .jobj m => !m.isEmpty

mutual
/-- Python `==` on JSON values (the code only compares against string
literals; `True == 1` crossovers are modelled, dict comparison is
field-list comparison, which the claims never exercise). -/
def jsonEq : Json → Json → Bool
  | .null, .null => true
  | .jbool a, .jbool b => a == b
  | .jbool a, .jint n => (if a then (1 : Int) else 0) == n
  | .jint n, .jbool b => n == (if b then (1 : Int) else 0)
  | .jint a, .jint b => a == b
  | .jstr a, .jstr b => decide (a = b)
  | .jarr a, .jarr b => jsonEqList a b
  | .jobj a, .jobj b => jsonEqFields a b
  | _, _ => false

def jsonEqList : List Json → List Json → Bool
  | [], [] => true
  | x :: xs, y :: ys => jsonEq x y && jsonEqList xs ys
  | _, _ => false

def jsonEqFields : List (String × Json) → List (String × Json) → Bool
  | [], [] => true
  | (k, x) :: xs, (l, y) :: ys => decide (k = l) && jsonEq x y && jsonEqFields xs ys
  | _, _ => false
end

/-- Python `iter(...)` as used by the generator expressions: lists yield
their elements, strings their characters, dicts their keys. -/
def pyIter : Json → Except PyErr (List Json)
  | .jarr xs => .ok xs
  | .jstr s => .ok (s.toList.map (fun c => .jstr c.toString))
  | .jobj m => .ok (m.map (fun kv => .jstr kv.1))
  | _ => .error .typeError

/-- Python `int(...)` on a JSON value (used on the rating lookup's
result). -/
def pyInt : Json → Except PyErr Int
  | .jint n => .ok n
  | .jbool b => .ok (if b then 1 else 0)
  | .jstr s =>
    match s.trim.toInt? with
    | some n => .ok n
    | none => .error .valueError
  | _ => .error .typeError

/-- Models `try: ... except ValueError: log; return fallback` around an
already-evaluated block: only `valueError` is caught. -/
def pyTry {α : Type} (r : Except PyErr α) (fallback : α) : Except PyErr α :=
  match r with
  | .ok v => .ok v
  | .error .valueError => .ok fallback
  | .error e => .error e

/-! ### Python string primitives -/

/-- Test whether `s` begins with `pat`. -/
def startsWith : List Char → List Char → Bool
  | [], _ => true
  | _ :: _, [] => false
  | p :: ps, c :: cs => p == c && startsWith ps cs

/-- Does `pat` occur anywhere in `s` (as a contiguous substring)? -/
def occurs (p : List Char) : List Char → Bool
  | [] => startsWith p []
  | s@(_ :: t) => startsWith p s || occurs p t

/-- Index of the leftmost occurrence of `pat` in `s`, if any. -/
def findSub (pat : List Char) : List Char → Option Nat
  | [] => if startsWith pat [] then some 0 else none
  | s@(_ :: t) => if startsWith pat s then some 0 else (findSub pat t).map (· + 1)

/-- Python `s.find(pat)`: leftmost index or `-1`. -/
def pyFind (s pat : List Char) : Int :=
  match findSub pat s with
  | some i => (i : Int)
  | none => -1

/-- Python slicing `s[a:b]` with full negative-index semantics. -/
def pySlice (s : List Char) (a b : Int) : List Char :=
  let n : Int := s.length
  let lo : Nat := (if a < 0 then max (n + a) 0 else min a n).toNat
  let hi : Nat := (if b < 0 then max (n + b) 0 else min b n).toNat
  (s.take hi).drop lo

/-- One left-to-right pass replacing each non-overlapping occurrence of
`p` by `r` (Python `s.replace(p, r)`, and `re.sub` with a literal
pattern).  The fuel argument makes the recursion structural; callers
pass `s.length`, which suffices because each step consumes at least one
character of `s`.  (`p` is never empty at any call site.) -/
def replaceAllF : Nat → List Char → List Char → List Char → List Char
  | 0, _, _, s => s
  | _ + 1, _, _, [] => []
  | f + 1, p, r, c :: t =>
    if startsWith p (c :: t) then r ++ replaceAllF f p r ((c :: t).drop p.length)
    else c :: replaceAllF f p r t

/-- Python `s.replace(p, r)` for nonempty `p`. -/
def replaceAll (p r s : List Char) : List Char := replaceAllF s.length p r s

/-! ### `html_to_markdown` (src/utils/problems.py lines 106-148) -/

/-- The replacement function of the first `re.sub`: inside a matched
`<code>|<pre> ... </code>|</pre>` region, the eight literal tags are
removed by sequential one-pass `str.replace` calls, in source order.
Note the source does not remove `<i>`/`</i>`. -/
def stripTags (m : List Char) : List Char :=
  replaceAll ("</u>".toList) []
    (replaceAll ("<u>".toList) []
      (replaceAll ("</strong>".toList) []
        (replaceAll ("<strong>".toList) []
          (replaceAll ("</em>".toList) []
            (replaceAll ("<em>".toList) []
              (replaceAll ("</b>".toList) []
                (replaceAll ("<b>".toList) [] m)))))))

/-- Leftmost occurrence of `</code>` or `</pre>`: its index and its
length.  This is where the lazy `(.*?)(</code>|</pre>)` group ends. -/
def findCloserPair : List Char → Option (Nat × Nat)
  | [] => none
  | s@(_ :: t) =>
    if startsWith ("</code>".toList) s then some (0, 7)
    else if startsWith ("</pre>".toList) s then some (0, 6)
    else (findCloserPair t).map (fun pr => (pr.1 + 1, pr.2))

/-- Models `re.sub(r"(<code>|<pre>)(.*?)(</code>|</pre>)", strip, html, DOTALL)`:
at each position, a match starts iff an opening tag starts there and some
closing tag occurs later; lazy matching ends the match at the earliest
closing tag.  The whole match (`group(0)`) is passed to `stripTags`.
Scanning resumes after the match. -/
def scanCodePreF : Nat → List Char → List Char
  | 0, s => s
  | _ + 1, [] => []
  | f + 1, c :: t =>
    let s := c :: t
    let openLen : Option Nat :=
      if startsWith ("<code>".toList) s then some 6
      else if startsWith ("<pre>".toList) s then some 5
      else none
    match openLen with
    | some L =>
      match findCloserPair (s.drop L) with
      | some (d, m) =>
        stripTags (s.take (L + d + m)) ++ scanCodePreF f (s.drop (L + d + m))
      | none => c :: scanCodePreF f t
    | none => c :: scanCodePreF f t

def scanCodePre (s : List Char) : List Char := scanCodePreF s.length s

/-- The matched regions (`group(0)`, before replacement) that the
code/pre substitution pass of `html_to_markdown` identifies in `s`. -/
def crRegionsF : Nat → List Char → List (List Char)
  | 0, _ => []
  | _ + 1, [] => []
  | f + 1, c :: t =>
    let s := c :: t
    let openLen : Option Nat :=
      if startsWith ("<code>".toList) s then some 6
      else if startsWith ("<pre>".toList) s then some 5
      else none
    match openLen with
    | some L =>
      match findCloserPair (s.drop L) with
      | some (d, m) => s.take (L + d + m) :: crRegionsF f (s.drop (L + d + m))
      | none => crRegionsF f t
    | none => crRegionsF f t

def crRegions (s : List Char) : List (List Char) := crRegionsF s.length s

/-- Models `re.sub(r'<img.*?src="(.*?)".*?>', r"", html, DOTALL)`: a match
starts at `<img` and requires, in order, a later `src="`, a later `"`,
and a later `>`, each located lazily (earliest occurrence); the match is
deleted.  An `<img>` without a `src="..."` attribute never matches. -/
def imgSubF : Nat → List Char → List Char
  | 0, s => s
  | _ + 1, [] => []
  | f + 1, c :: t =>
    let s := c :: t
    if startsWith ("<img".toList) s then
      match findSub ("src=\"".toList) (s.drop 4) with
      | some j =>
        match findSub ("\"".toList) (s.drop (4 + j + 5)) with
        | some k =>
          match findSub (">".toList) (s.drop (4 + j + 5 + k + 1)) with
          | some l => imgSubF f (s.drop (4 + j + 5 + k + 1 + l + 1))
          | none => c :: imgSubF f t
        | none => c :: imgSubF f t
      | none => c :: imgSubF f t
    else c :: imgSubF f t

def imgSub (s : List Char) : List Char := imgSubF s.length s

/-- Models `re.sub(r"<style.*?>.*?</style>", r"", html, DOTALL)`: a match
starts at `<style`, needs a later `>` and then a later `</style>`, each
earliest; the match is deleted.  An unclosed `<style>` never matches. -/
def styleSubF : Nat → List Char → List Char
  | 0, s => s
  | _ + 1, [] => []
  | f + 1, c :: t =>
    let s := c :: t
    if startsWith ("<style".toList) s then
      match findSub (">".toList) (s.drop 6) with
      | some j =>
        match findSub ("</style>".toList) (s.drop (6 + j + 1)) with
        | some k => styleSubF f (s.drop (6 + j + 1 + k + 8))
        | none => c :: styleSubF f t
      | none => c :: styleSubF f t
    else c :: styleSubF f t

def styleSub (s : List Char) : List Char := styleSubF s.length s

/-- Everything `html_to_markdown` does to the HTML before handing it to
the external `markdownify` converter: the code/pre tag-stripping pass
followed by the five substitutions, in source order. -/
def preprocess (html : List Char) : List Char :=
  replaceAll ("&nbsp;".toList) " ".toList
    (styleSub
      (imgSub
        (replaceAll ("</sup>".toList) []
          (replaceAll ("<sup>".toList) "^".toList
            (scanCodePre html)))))

/-- Models `re.sub(r"\n\n", "\n", markdown)`: one left-to-right pass collapsing
non-overlapping doubled newlines. -/
def collapse_newlines (s : List Char) : List Char :=
  replaceAll ("\n\n".toList) "\n".toList s

/-- The function `html_to_markdown`, with the external `markdownify.markdownify`
converter as the parameter `md`. -/
def html_to_markdown (md : List Char → List Char) (html : List Char) : List Char :=
  collapse_newlines (md (preprocess html))

/-! ### `parse_content` (src/utils/problems.py lines 70-103) -/

def ex1Marker : List Char := "<p><strong class=\"example\">Example 1:</strong></p>".toList

def ex2Marker : List Char := "<p><strong class=\"example\">Example 2:</strong></p>".toList

def fuMarker : List Char := "<strong>Follow up:</strong> ".toList

/-- The function `parse_content(content)`, parameterized by the external converter
used inside `html_to_markdown`.  Faithful to the source, including the
behaviour of `find` returning `-1` feeding Python's negative-index
slicing. -/
def parse_content (md : List Char → List Char) (content : List Char) :
    List Char × List Char × Option (List Char) :=
  let p1 : Int := pyFind content ex1Marker
  let p2 : Int := pyFind content ex2Marker
  let pf : Int := pyFind content fuMarker
  let description := html_to_markdown md (pySlice content 0 p1)
  let exampleOne :=
    html_to_markdown md (pySlice content (p1 + (ex1Marker.length : Int)) p2)
  let followUp :=
    if pf = -1 then none
    else some (html_to_markdown md (pySlice content (pf + (fuMarker.length : Int)) (content.length : Int)))
  (description, exampleOne, followUp)

/-- Shape of the tag-freedom part of claim C4: every code/pre region of
the string is free of the five tag literals the spec names. -/
def regionTagFree (s : List Char) : Bool :=
  (crRegions s).all (fun r =>
    !occurs ("<b>".toList) r && !occurs ("<i>".toList) r && !occurs ("<u>".toList) r &&
      !occurs ("<strong>".toList) r && !occurs ("<em>".toList) r)

/-- Shape of the second part of claim C4: no `<img` tag start, no
`<style` block start, no `&nbsp;` entity anywhere in the string. -/
def noImgStyleNbsp (s : List Char) : Bool :=
  !occurs ("<img".toList) s && !occurs ("<style".toList) s && !occurs ("&nbsp;".toList) s

/-! ### Typed records (src/utils/problems.py lines 35-62)

The Python dataclasses perform no runtime coercion, so fields that are
stored straight from JSON keep type `Json` here; fields the code itself
computes get the corresponding Lean type. -/

structure QuestionInfo where
  premium : Json
  question_id : Json
  difficulty : Json
  title : Json
  link : String
  total_accepted : Json
  total_submission : Json
  ac_rate : Json
  question_rating : Option Int
  description : List Char
  example_one : List Char
  follow_up : Option (List Char)

structure Submissions where
  easy : Json
  medium : Json
  hard : Json
  score : Json

structure UserStats where
  real_name : Json
  submissions : Submissions

/-- Log/signal events relevant to the claims about
`fetch_problems_solved_and_rank`. -/
inductive LogEvent where
  | errorLog
  | rateLimitedLog
  | forbiddenLog
  | decodeErrorLog
deriving DecidableEq, Repr

/-! ### Client operations (src/utils/problems.py lines 151-410)

Each operation is modelled from the moment the HTTP response is
available.  The request payload construction has no observable effect on
response handling and is omitted.  The result is `Except PyErr (...)`:
`.ok` is a normal return (with `none` for Python `None`), `.error` is an
exception escaping to the caller. -/

/-- Response handling of `fetch_random_question` (lines 181-203). -/
def fetch_random_question (resp : HttpResponse) : Except PyErr (Option Json) :=
  if resp.status ≠ 200 then .ok none
  else
    pyTry (do
      let d ← resp.body.getKey ("data")
      let rq ← d.getKey ("randomQuestion")
      let ts ← rq.getKey ("titleSlug")
      pure (some ts)) none

/-- Response handling of `fetch_daily_question` (lines 228-249). -/
def fetch_daily_question (resp : HttpResponse) : Except PyErr (Option Json) :=
  if resp.status ≠ 200 then .ok none
  else
    pyTry (do
      let d ← resp.body.getKey ("data")
      let ch ← d.getKey ("challenge")
      let q ← ch.getKey ("question")
      let ts ← q.getKey ("titleSlug")
      pure (some ts)) none

/-- Response handling of `search_question` (lines 293-319).  Note the
truthiness guard is on the `problemsetQuestionList` object itself, not
on its `questions` list; indexing `[0]` into an empty list raises
`IndexError`, which `except ValueError` does not catch. -/
def search_question (resp : HttpResponse) : Except PyErr (Option Json) :=
  if resp.status ≠ 200 then .ok none
  else
    pyTry (do
      let d ← resp.body.getKey ("data")
      let qml ← d.getKey ("problemsetQuestionList")
      if qml.truthy = false then pure none
      else do
        let qs ← qml.getKey ("questions")
        let q0 ← qs.getIdx 0
        let ts ← q0.getKey ("titleSlug")
        pure (some ts)) none

/-- Response handling of `fetch_question_info` (lines 354-410).
`md` is the external converter, `litEval` models `ast.literal_eval`,
`ratings` models `bot.ratings.fetch_rating` (returning `Json.null` for
an absent rating).  The rating lookup and `parse_content` run outside
the `try` block, as in the source. -/
def fetch_question_info (md : List Char → List Char)
    (litEval : Json → Except PyErr Json) (ratings : Json → Json)
    (slug : String) (resp : HttpResponse) : Except PyErr (Option QuestionInfo) :=
  if resp.status ≠ 200 then .ok none
  else
    match pyTry (do
      let d ← resp.body.getKey ("data")
      let q ← d.getKey ("question")
      let qid ← q.getKey ("questionFrontendId")
      let dif ← q.getKey ("difficulty")
      let ttl ← q.getKey ("title")
      let paid ← q.getKey ("isPaidOnly")
      let content ← if paid.truthy then pure (Json.jstr ("")) else q.getKey ("content")
      let statsJ ← q.getKey ("stats")
      let stats ← litEval statsJ
      let ta ← stats.getKey ("totalAccepted")
      let ts ← stats.getKey ("totalSubmission")
      let ar ← stats.getKey ("acRate")
      pure (some (qid, dif, ttl, paid, content, ta, ts, ar))) none
    with
    | .error e => .error e
    | .ok none => .ok none
    | .ok (some (qid, dif, ttl, paid, content, ta, ts, ar)) =>
      let ratingStep : Except PyErr (Option Int) :=
        if paid.truthy then .ok none
        else
          let rating := ratings ttl
          if rating.truthy then (pyInt rating).map some else .ok none
      match ratingStep with
      | .error e => .error e
      | .ok qrating =>
        match content with
        | .jstr cs =>
          let pc := parse_content md cs.toList
          .ok (some
            { premium := paid
              question_id := qid
              difficulty := dif
              title := ttl
              link := "https://leetcode.com/problems/" ++ slug
              total_accepted := ta
              total_submission := ts
              ac_rate := ar
              question_rating := qrating
              description := pc.1
              example_one := pc.2.1
              follow_up := pc.2.2 })
        | _ => .error .attrError

/-- The `next((item["count"] for item in ac_submission_num if
item["difficulty"] == name), 0)` expressions (lines 487-510): first
matching item's count, default `0`; items after the first match are
never inspected. -/
def next_count (name : String) : List Json → Except PyErr Json
  | [] => .ok (.jint 0)
  | item :: rest => do
    let d ← item.getKey ("difficulty")
    if jsonEq d (.jstr name) then item.getKey ("count") else next_count name rest

/-- One un-decorated call of `fetch_problems_solved_and_rank`
(lines 414-529), from the response on: the `match response.status`
dispatch, the guarded parse, and the log/signal events it emits.
The semaphore and the post-success sleep have no effect on a single
call's result and are modelled separately (`GuardStep`). -/
def fetch_problems_solved_and_rank (score : Json → Json → Json → Json)
    (resp : HttpResponse) : Except PyErr (Option UserStats) × List LogEvent :=
  if resp.status = 200 then
    match (do
      let d ← resp.body.getKey ("data")
      let mu ← d.getKey ("matchedUser")
      if mu.truthy = false then pure none
      else do
        let prof ← mu.getKey ("profile")
        let rn ← prof.getKey ("realName")
        let ssg ← mu.getKey ("submitStatsGlobal")
        let asn ← ssg.getKey ("acSubmissionNum")
        let items ← pyIter asn
        let ec ← next_count ("Easy") items
        let mc ← next_count ("Medium") items
        let hc ← next_count ("Hard") items
        pure (some
          { real_name := rn
            submissions :=
              { easy := ec, medium := mc, hard := hc, score := score ec mc hc } }) :
      Except PyErr (Option UserStats))
    with
    | .error .valueError => (.ok none, [.decodeErrorLog])
    | .error e => (.error e, [])
    | .ok v => (.ok v, [])
  else if resp.status = 429 then (.error .rateLimited, [.rateLimitedLog])
  else if resp.status = 403 then (.ok none, [.errorLog, .forbiddenLog])
  else (.ok none, [.errorLog])

/-- The `@backoff.on_exception(backoff.expo, RateLimitReached)`
decorator: re-invoke the body while it raises `RateLimitReached`,
with unbounded attempts.  `backend k` is the response the k-th request
receives; `fuel` bounds the observed prefix of the (in reality
unbounded) retry loop, and on exhaustion the still-rate-limited outcome
is returned as is.  Results: (outcome, number of HTTP requests issued,
emitted log events). -/
def fetchWithBackoff (score : Json → Json → Json → Json)
    (backend : Nat → HttpResponse) :
    Nat → Nat → Except PyErr (Option UserStats) × Nat × List LogEvent
  | 0, k =>
    let step := fetch_problems_solved_and_rank score (backend k)
    (step.1, k + 1, step.2)
  | f + 1, k =>
    let step := fetch_problems_solved_and_rank score (backend k)
    match step.1 with
    | .error .rateLimited =>
      let rest := fetchWithBackoff score backend f (k + 1)
      (rest.1, rest.2.1, step.2 ++ rest.2.2)
    | r => (r, k + 1, step.2)

/-! ### The concurrency gate (src/utils/problems.py line 32 and 445-448)

`semaphore = asyncio.Semaphore(8)` guards the request block of
`fetch_problems_solved_and_rank`.  Cooperative concurrency is modelled
as an interleaving transition system over the aggregate state of the
tasks sharing the gate: a task acquires a permit to move its request
in flight and releases it when its guarded block exits. -/

/-- The capacity of `asyncio.Semaphore(8)`. -/
def semaphoreCapacity : Nat := 8

structure GuardState where
  waiting : Nat
  inFlight : Nat
  finished : Nat
  sem : Nat
deriving DecidableEq, Repr

/-- Initial state: `n` callers about to enter `async with semaphore`, none in flight,
all permits free. -/
def guardInit (n : Nat) : GuardState :=
  { waiting := n, inFlight := 0, finished := 0, sem := semaphoreCapacity }

/-- A waiting task can enter the guarded block only by taking a permit;
a task in flight leaves the block and returns its permit. -/
inductive GuardStep : GuardState → GuardState → Prop
  | acquire (s : GuardState) (hw : 0 < s.waiting) (hs : 0 < s.sem) :
      GuardStep s
        { waiting := s.waiting - 1, inFlight := s.inFlight + 1,
          finished := s.finished, sem := s.sem - 1 }
  | release (s : GuardState) (hi : 0 < s.inFlight) :
      GuardStep s
        { waiting := s.waiting, inFlight := s.inFlight - 1,
          finished := s.finished + 1, sem := s.sem + 1 }

/-- States reachable from `guardInit n` by any interleaving. -/
def GuardReachable (n : Nat) (s : GuardState) : Prop :=
  Relation.ReflTransGen GuardStep (guardInit n) s

/-! ### Concrete backends used by the retry claims -/

/-- A well-formed 200 user-stats payload. -/
def statsPayload : Json :=
  .jobj [("data", .jobj [("matchedUser", .jobj [
    ("profile", .jobj [("realName", .jstr ("Alice"))]),
    ("submitStatsGlobal", .jobj [("acSubmissionNum", .jarr [
      .jobj [("difficulty", .jstr ("Easy")), ("count", .jint 3)],
      .jobj [("difficulty", .jstr ("Medium")), ("count", .jint 5)],
      .jobj [("difficulty", .jstr ("Hard")), ("count", .jint 7)]])])])])]

/-- The `UserStats` the code derives from `statsPayload`. -/
def statsOf (score : Json → Json → Json → Json) : UserStats :=
  { real_name := .jstr ("Alice")
    submissions :=
      { easy := .jint 3, medium := .jint 5, hard := .jint 7,
        score := score (.jint 3) (.jint 5) (.jint 7) } }

/-- Mock backend: first request is answered 429, every later one 200
with `statsPayload`. -/
def backend429then200 : Nat → HttpResponse :=
  fun k => if k = 0 then { status := 429, body := .null } else { status := 200, body := statsPayload }

/-! ### Helper lemmas -/

theorem replaceAllF_nil (f : Nat) (p r : List Char) : replaceAllF f p r [] = [] := by
  cases f <;> rfl

theorem nbsp_toList : "&nbsp;".toList = ['&', 'n', 'b', 's', 'p', ';'] := rfl

theorem space_toList : " ".toList = [' '] := rfl

/-- A space-free prefix of the output of the `&nbsp;`-substitution is
already a prefix of its input: the substitution only ever inserts the
space character. -/
theorem startsWith_of_startsWith_replaceAllF_nbsp :
    ∀ (t : List Char) (f : Nat) (u : List Char), (' ' ∈ u → False) →
      startsWith u (replaceAllF f ['&', 'n', 'b', 's', 'p', ';'] [' '] t) = true →
      startsWith u t = true := by
  intro t
  induction t with
  | nil =>
    intro f u _ h
    rwa [replaceAllF_nil] at h
  | cons c t ih =>
    intro f u hsp h
    cases f with
    | zero => exact h
    | succ g =>
      by_cases hp : startsWith ['&', 'n', 'b', 's', 'p', ';'] (c :: t) = true
      · rw [replaceAllF, if_pos hp] at h
        cases u with
        | nil => rfl
        | cons a u =>
          simp only [List.cons_append, List.nil_append, startsWith,
            Bool.and_eq_true, beq_iff_eq] at h
          exact absurd (h.1 ▸ List.mem_cons_self a u) (fun hm => hsp hm)
      · rw [replaceAllF, if_neg hp] at h
        cases u with
        | nil => rfl
        | cons a u =>
          simp only [startsWith, Bool.and_eq_true, beq_iff_eq] at h ⊢
          exact ⟨h.1, ih g u (fun hm => hsp (List.mem_cons_of_mem a hm)) h.2⟩

/-- After the final `&nbsp;`-substitution pass, the string contains no
occurrence of `&nbsp;`. -/
theorem occurs_nbsp_replaceAllF :
    ∀ (f : Nat) (s : List Char), s.length ≤ f →
      occurs ['&', 'n', 'b', 's', 'p', ';'] (replaceAllF f ['&', 'n', 'b', 's', 'p', ';'] [' '] s) = false := by
  intro f
  induction f with
  | zero =>
    intro s hs
    have : s = [] := List.length_eq_zero.mp (Nat.le_zero.mp hs)
    subst this
    rfl
  | succ g ih =>
    intro s hs
    cases s with
    | nil => rfl
    | cons c t =>
      by_cases hp : startsWith ['&', 'n', 'b', 's', 'p', ';'] (c :: t) = true
      · rw [replaceAllF, if_pos hp]
        simp only [List.cons_append, List.nil_append, occurs, Bool.or_eq_false_iff]
        constructor
        · rfl
        · apply ih
          simp only [List.length_drop, List.length_cons] at *
          omega
      · rw [replaceAllF, if_neg hp]
        simp only [occurs, Bool.or_eq_false_iff]
        constructor
        · by_contra hcon
          rw [Bool.not_eq_false] at hcon
          simp only [startsWith, Bool.and_eq_true, beq_iff_eq] at hcon
          have hq := startsWith_of_startsWith_replaceAllF_nbsp t g
            ['n', 'b', 's', 'p', ';'] (by decide)
            (by simpa using hcon.2)
          apply hp
          simp only [startsWith, Bool.and_eq_true, beq_iff_eq]
          exact ⟨hcon.1, hq⟩
        · apply ih
          simp only [List.length_cons] at hs
          omega

theorem newline2_toList : "\n\n".toList = ['\n', '\n'] := rfl

theorem newline1_toList : "\n".toList = ['\n'] := rfl

/-- The single collapsing pass on a run of `k` newlines leaves
`⌈k/2⌉ = (k+1)/2` newlines. -/
theorem replaceAllF_newline_replicate :
    ∀ (f k : Nat), k ≤ f →
      replaceAllF f ['\n', '\n'] ['\n'] (List.replicate k '\n') =
        List.replicate ((k + 1) / 2) '\n' := by
  intro f
  induction f with
  | zero =>
    intro k hk
    interval_cases k
    rfl
  | succ g ih =>
    intro k hk
    match k with
    | 0 => rfl
    | 1 =>
      rw [show List.replicate 1 '\n' = ['\n'] from rfl, replaceAllF,
        if_neg (by decide), replaceAllF_nil]
    | k + 2 =>
      have h2 : List.replicate (k + 2) '\n' = '\n' :: '\n' :: List.replicate k '\n' := rfl
      rw [h2, replaceAllF, if_pos (by simp [startsWith])]
      have hdrop : (('\n' :: '\n' :: List.replicate k '\n').drop
          (['\n', '\n'] : List Char).length) = List.replicate k '\n' := rfl
      rw [hdrop, ih k (by omega)]
      have : (k + 2 + 1) / 2 = (k + 1) / 2 + 1 := by omega
      rw [this, List.replicate_succ]
      rfl

/-- Python `s[:-1]` drops the final character. -/
theorem pySlice_zero_negOne (s : List Char) : pySlice s 0 (-1) = s.dropLast := by
  simp only [pySlice]
  rw [if_neg (by omega), if_pos (by omega)]
  have h1 : ((min (0 : Int) (s.length : Int)).toNat) = 0 := by omega
  have h2 : ((max ((s.length : Int) + -1) 0).toNat) = s.length - 1 := by omega
  rw [h1, h2, List.drop_zero, List.dropLast_eq_take]

/-- Evaluating `parse_content` on the empty content (with a converter sending empty
to empty, as `markdownify` does) yields empty description, empty first
example and no follow-up. -/
theorem parse_content_nil (md : List Char → List Char) (hmd : md [] = []) :
    parse_content md [] = ([], [], none) := by
  simp only [parse_content]
  rw [show pyFind [] fuMarker = -1 from rfl]
  rw [show pySlice [] 0 (pyFind [] ex1Marker) = [] from rfl]
  rw [show pySlice [] (pyFind [] ex1Marker + (ex1Marker.length : Int)) (pyFind [] ex2Marker) = [] from rfl]
  simp only [html_to_markdown]
  rw [show preprocess [] = [] from rfl, hmd]
  rfl

/-- If no item of the list has the wanted difficulty, the `next(..., 0)`
expression returns the default `0` (and inspects only `difficulty`
fields). -/
theorem next_count_default (name : String) :
    ∀ xs : List Json,
      (∀ j ∈ xs, ∃ d, j.getKey ("difficulty") = .ok d ∧ jsonEq d (.jstr name) = false) →
      next_count name xs = .ok (.jint 0) := by
  intro xs
  induction xs with
  | nil => intro _; rfl
  | cons item rest ih =>
    intro h
    obtain ⟨d, hd, hne⟩ := h item (List.mem_cons_self item rest)
    simp only [next_count, hd, Bind.bind, Except.bind, hne, Bool.false_eq_true,
      if_false]
    exact ih (fun j hj => h j (List.mem_cons_of_mem item hj))

/-- Reachable gate states keep `inFlight + sem` equal to the capacity. -/
theorem guard_invariant (n : Nat) (s : GuardState) (h : GuardReachable n s) :
    s.inFlight + s.sem = semaphoreCapacity := by
  induction h with
  | refl => rfl
  | tail _ hstep ih =>
    cases hstep with
    | acquire hw hs => simp only at *; omega
    | release hi => simp only at *; omega

/-! ### Claim theorems -/

/-- Claim C1 (code_bug evidence): on an HTTP 200 response whose JSON
body is missing the expected fields (here the empty object, so that
already `response_data["data"]` fails), every one of the five client
operations raises `KeyError` to its caller instead of logging and
returning `None`: the `except ValueError` clause does not catch
`KeyError`.  This contradicts the claim (and each function's own
docstring, which promises `None` if an error occurs). -/
theorem C1_missing_field_raises :
    fetch_random_question { status := 200, body := .jobj [] } = .error .keyError ∧
    fetch_daily_question { status := 200, body := .jobj [] } = .error .keyError ∧
    search_question { status := 200, body := .jobj [] } = .error .keyError ∧
    fetch_question_info (fun s => s) (fun _ => .error .valueError) (fun _ => .null)
      ("two-sum") { status := 200, body := .jobj [] } = .error .keyError ∧
    fetch_problems_solved_and_rank (fun _ _ _ => .jint 0)
      { status := 200, body := .jobj [] } = (.error .keyError, []) :=
  ⟨rfl, rfl, rfl, rfl, rfl⟩

/-- Claim C2 (code_bug evidence): with a 200 response whose
`problemsetQuestionList` is present and holds an empty `questions` list,
`search_question` raises `IndexError` (from `[0]` on the empty list)
instead of returning `None`; with a non-empty list it does return the
first slug.  The empty-list outcome contradicts the claim and the
function's docstring (`None if no match is found`). -/
theorem C2_empty_list_raises :
    search_question { status := 200, body := .jobj [("data", .jobj
      [("problemsetQuestionList", .jobj [("questions", .jarr [])])])] } =
        .error .indexError ∧
    search_question { status := 200, body := .jobj [("data", .jobj
      [("problemsetQuestionList", .jobj [("questions", .jarr
        [.jobj [("titleSlug", .jstr ("two-sum"))]])])])] } =
        .ok (some (.jstr ("two-sum"))) :=
  ⟨rfl, rfl⟩

/-- Claim C5: against a backend answering 429 and then 200, the
backoff-decorated `fetch_problems_solved_and_rank` raises the
rate-limit signal internally, retries, and returns the `UserStats`
derived from the 200 payload; exactly two requests are issued and the
429 never reaches the caller (for any retry budget and any scoring
function). -/
theorem C5_retries_429_then_returns_stats :
    ∀ (score : Json → Json → Json → Json) (f : Nat),
      fetchWithBackoff score backend429then200 (f + 1) 0 =
        (.ok (some (statsOf score)), 2, [.rateLimitedLog]) := by
  intro score f
  have haux : ∀ g : Nat, fetchWithBackoff score backend429then200 g 1 =
      (.ok (some (statsOf score)), 2, []) := by
    intro g
    cases g with
    | zero => rfl
    | succ g => rfl
  show (let rest := fetchWithBackoff score backend429then200 f 1;
    ((rest.1, rest.2.1, [LogEvent.rateLimitedLog] ++ rest.2.2) :
      Except PyErr (Option UserStats) × Nat × List LogEvent)) =
    (.ok (some (statsOf score)), 2, [.rateLimitedLog])
  rw [haux f]
  rfl

/-- Claim C6: on a 403 response the call logs the error, signals the
distinguished forbidden condition, and returns `None` without raising,
so the backoff wrapper does not retry: exactly one request is issued,
for any retry budget, any scoring function and any response body. -/
theorem C6_forbidden_no_retry :
    ∀ (score : Json → Json → Json → Json) (f : Nat) (b : Json),
      fetchWithBackoff score (fun _ => { status := 403, body := b }) f 0 =
        (.ok none, 1, [.errorLog, .forbiddenLog]) := by
  intro score f b
  cases f with
  | zero => rfl
  | succ f => rfl

/-- Claim C8: in every state reachable by interleaving any number of
gate-sharing callers (here the claim's nine), at most 8 requests are in
flight, and when 8 are in flight the semaphore has no permit left, so a
ninth caller's acquire transition is disabled until a release occurs. -/
theorem C8_at_most_eight_in_flight :
    ∀ s : GuardState, GuardReachable 9 s →
      s.inFlight ≤ 8 ∧ (s.inFlight = 8 → s.sem = 0 ∧
        ∀ s' : GuardState, GuardStep s s' → s'.inFlight ≤ 8) := by
  intro s hs
  have hinv := guard_invariant 9 s hs
  simp only [semaphoreCapacity] at hinv
  refine ⟨by omega, fun h8 => ⟨by omega, ?_⟩⟩
  intro s' hstep
  have hinv' := guard_invariant 9 s' (Relation.ReflTransGen.tail hs hstep)
  simp only [semaphoreCapacity] at hinv'
  omega

/-- Witness for C8 at the initial state of nine pending callers. -/
theorem C8_witness :
    (guardInit 9).inFlight ≤ 8 ∧ ((guardInit 9).inFlight = 8 → (guardInit 9).sem = 0 ∧
      ∀ s' : GuardState, GuardStep (guardInit 9) s' → s'.inFlight ≤ 8) :=
  C8_at_most_eight_in_flight (guardInit 9) Relation.ReflTransGen.refl

/-- Claim C3 counterexample: on the marker-free content `"ab"` (with the
identity stand-in for the external converter, which is the identity on
tag-free text), `parse_content` returns `"a"` as the description — not
the full normalized content `"ab"`: `find` returned `-1` and the slice
`content[:-1]` dropped the last character. -/
theorem C3_counterexample :
    (parse_content (fun s => s) ("ab".toList)).1 = ['a'] ∧
    html_to_markdown (fun s => s) ("ab".toList) = ['a', 'b'] ∧
    ¬ (parse_content (fun s => s) ("ab".toList)).1 =
        html_to_markdown (fun s => s) ("ab".toList) := by
  refine ⟨by decide, by decide, by decide⟩

/-- Claim C3 amended: on content containing neither the `Example 1:` nor
the `Example 2:` marker, both `find` calls return `-1`, so `description`
is the normalization of the content *without its final character*
(Python `content[:-1]`), and `example_one` is the normalization of
`content[49:-1]` (empty whenever the content has at most 50
characters). -/
theorem C3_no_marker_slices :
    ∀ (md : List Char → List Char) (content : List Char),
      pyFind content ex1Marker = -1 → pyFind content ex2Marker = -1 →
      (parse_content md content).1 = html_to_markdown md content.dropLast ∧
      (parse_content md content).2.1 = html_to_markdown md (pySlice content 49 (-1)) := by
  intro md content h1 h2
  simp only [parse_content, h1, h2]
  constructor
  · rw [pySlice_zero_negOne]
  · rw [show (-1 : Int) + ((ex1Marker.length : Nat) : Int) = 49 from by decide]

/-- Witness for `C3_no_marker_slices` on the concrete content `"ab"`. -/
theorem C3_no_marker_slices_witness :
    (parse_content (fun s => s) ("ab".toList)).1 =
        html_to_markdown (fun s => s) ("ab".toList).dropLast ∧
    (parse_content (fun s => s) ("ab".toList)).2.1 =
        html_to_markdown (fun s => s) (pySlice ("ab".toList) 49 (-1)) :=
  C3_no_marker_slices (fun s => s) ("ab".toList) (by decide) (by decide)

/-- Claim C4 counterexample: the output of `html_to_markdown` (shown
with the identity stand-in for the external converter) can still carry
`<i>` tags inside a code region (the code never strips `<i>`), can
carry a `<b>` tag spliced together by the sequential literal
replacements, an `<img>` tag that has no `src` attribute, and an
unclosed `<style>` tag. -/
theorem C4_counterexample :
    regionTagFree (html_to_markdown (fun s => s) ("<code><i>x</i></code>".toList)) = false ∧
    regionTagFree (html_to_markdown (fun s => s) ("<code><<b>b></code>".toList)) = false ∧
    noImgStyleNbsp (html_to_markdown (fun s => s) ("<img>".toList)) = false ∧
    noImgStyleNbsp (html_to_markdown (fun s => s) ("<style>p".toList)) = false := by
  refine ⟨by decide, by decide, by decide, by decide⟩

/-- Claim C4 amended: of the claimed guarantees, the one the code
delivers unconditionally is the `&nbsp;` one — after the substitution
pipeline (whose last pass replaces every occurrence of `&nbsp;` by a
space, and a space can never recreate one) the pre-conversion text
contains no `&nbsp;`.  Tag freedom inside code/pre regions holds only
for the literals actually replaced and can be defeated by splicing, as
`C4_counterexample` shows. -/
theorem C4_no_nbsp_after_preprocess :
    ∀ html : List Char, occurs ("&nbsp;".toList) (preprocess html) = false := by
  intro html
  simp only [preprocess, replaceAll, nbsp_toList, space_toList]
  exact occurs_nbsp_replaceAllF _ _ le_rfl

/-- Claim C9 counterexample: a converted markdown of three consecutive
newlines (identity stand-in converter; three newlines pass the
substitution pipeline untouched) collapses to two newlines — the output
still contains a doubled newline, because the single `re.sub` pass
does not iterate. -/
theorem C9_counterexample :
    html_to_markdown (fun s => s) ("\n\n\n".toList) = ['\n', '\n'] ∧
    occurs ("\n\n".toList) (html_to_markdown (fun s => s) ("\n\n\n".toList)) = true := by
  refine ⟨by decide, by decide⟩

/-- Claim C9 amended: the final pass of `html_to_markdown` replaces
non-overlapping doubled newlines left-to-right in a single sweep, so a
run of `k` consecutive newlines becomes exactly `⌈k/2⌉` newlines; runs
of three or more newlines therefore still leave doubled newlines in the
output (so the claimed absence of `\n\n` holds only for inputs whose
newline runs have length at most two). -/
theorem C9_collapse_halves_runs :
    ∀ k : Nat, collapse_newlines (List.replicate k '\n') =
      List.replicate ((k + 1) / 2) '\n' := by
  intro k
  simp only [collapse_newlines, replaceAll, newline2_toList, newline1_toList]
  rw [List.length_replicate]
  exact replaceAllF_newline_replicate k k le_rfl

/-- Claim C7: on any 200 response whose question is marked paid-only
(and otherwise well-shaped: all accessed fields present, `stats`
parseable), `fetch_question_info` returns a `QuestionInfo` with
`premium` true, empty `description` and `example_one` (the content is
replaced by the empty string before normalization; the converter sends
empty to empty, as `markdownify` does), and the rating lookup is
skipped, leaving `question_rating = none`. -/
theorem C7_premium_withholds_content :
    ∀ (md : List Char → List Char) (litEval : Json → Except PyErr Json)
      (ratings : Json → Json) (slug : String)
      (body d q qid dif ttl sj st ta ts ar : Json),
      body.getKey ("data") = .ok d →
      d.getKey ("question") = .ok q →
      q.getKey ("questionFrontendId") = .ok qid →
      q.getKey ("difficulty") = .ok dif →
      q.getKey ("title") = .ok ttl →
      q.getKey ("isPaidOnly") = .ok (.jbool true) →
      q.getKey ("stats") = .ok sj →
      litEval sj = .ok st →
      st.getKey ("totalAccepted") = .ok ta →
      st.getKey ("totalSubmission") = .ok ts →
      st.getKey ("acRate") = .ok ar →
      md [] = [] →
      fetch_question_info md litEval ratings slug { status := 200, body := body } =
        .ok (some
          { premium := .jbool true, question_id := qid, difficulty := dif,
            title := ttl, link := "https://leetcode.com/problems/" ++ slug,
            total_accepted := ta, total_submission := ts, ac_rate := ar,
            question_rating := none, description := [], example_one := [],
            follow_up := none }) := by
  intro md litEval ratings slug body d q qid dif ttl sj st ta ts ar
  intro hd hq hqid hdif httl hpaid hsj hle hta hts har hmd
  simp only [fetch_question_info, hd, hq, hqid, hdif, httl, hpaid, hsj, hle, hta,
    hts, har, Json.truthy, bind, Except.bind, pure, Except.pure, pyTry,
    ne_eq, not_true_eq_false, if_false, if_true, ite_true, ite_false]
  rw [show ("".toList : List Char) = [] from rfl, parse_content_nil md hmd]

/-- Witness for `C7_premium_withholds_content` on a concrete paid-only
response, identity converter, constant collaborators. -/
theorem C7_premium_witness :
    fetch_question_info (fun s => s)
      (fun _ => .ok (.jobj [("totalAccepted", .jint 10), ("totalSubmission", .jint 20),
        ("acRate", .jstr ("50.0%"))]))
      (fun _ => .null) ("shortest-palindrome")
      { status := 200, body := .jobj [("data", .jobj [("question", .jobj
        [("questionFrontendId", .jint 214), ("difficulty", .jstr ("Hard")),
         ("title", .jstr ("Shortest Palindrome")), ("isPaidOnly", .jbool true),
         ("stats", .jstr ("raw"))])])] } =
      .ok (some
        { premium := .jbool true, question_id := .jint 214,
          difficulty := .jstr ("Hard"), title := .jstr ("Shortest Palindrome"),
          link := "https://leetcode.com/problems/" ++ "shortest-palindrome",
          total_accepted := .jint 10, total_submission := .jint 20,
          ac_rate := .jstr ("50.0%"), question_rating := none, description := [],
          example_one := [], follow_up := none }) :=
  C7_premium_withholds_content (fun s => s) _ _ _ _ _ _ _ _ _ _ _ _ _ _
    rfl rfl rfl rfl rfl rfl rfl rfl rfl rfl rfl rfl

/-- Claim C10: for a well-shaped 200 user-stats response whose
`acSubmissionNum` list has no `Easy` entry (each item carries a
`difficulty` different from `"Easy"`), the easy count defaults to `0`
via `next(..., 0)`, and the returned `score` is the scoring function
applied to exactly the three (possibly defaulted) counts. -/
theorem C10_missing_difficulty_defaults :
    ∀ (score : Json → Json → Json → Json) (rn : Json) (xs : List Json)
      (mcount hcount : Json),
      (∀ j ∈ xs, ∃ dv, j.getKey ("difficulty") = .ok dv ∧
        jsonEq dv (.jstr ("Easy")) = false) →
      next_count ("Medium") xs = .ok mcount →
      next_count ("Hard") xs = .ok hcount →
      fetch_problems_solved_and_rank score
        { status := 200, body := .jobj [("data", .jobj [("matchedUser", .jobj [
            ("profile", .jobj [("realName", rn)]),
            ("submitStatsGlobal", .jobj [("acSubmissionNum", .jarr xs)])])])] } =
        (.ok (some
          { real_name := rn
            submissions :=
              { easy := .jint 0, medium := mcount, hard := hcount,
                score := score (.jint 0) mcount hcount } }), []) := by
  intro score rn xs mcount hcount hno hm hh
  have he := next_count_default ("Easy") xs hno
  simp +decide only [fetch_problems_solved_and_rank, Json.getKey, lookupKey,
    Json.truthy, pyIter, bind, Except.bind, pure, Except.pure, he, hm, hh,
    List.isEmpty, Bool.not_false, Bool.not_true, if_true, if_false, ite_true,
    ite_false]

/-- Witness for `C10_missing_difficulty_defaults` on a concrete
response carrying only Medium and Hard entries. -/
theorem C10_missing_difficulty_witness :
    fetch_problems_solved_and_rank (fun _ _ _ => .jint 0)
      { status := 200, body := .jobj [("data", .jobj [("matchedUser", .jobj [
          ("profile", .jobj [("realName", .jstr ("B"))]),
          ("submitStatsGlobal", .jobj [("acSubmissionNum", .jarr [
            .jobj [("difficulty", .jstr ("Medium")), ("count", .jint 5)],
            .jobj [("difficulty", .jstr ("Hard")), ("count", .jint 7)]])])])])] } =
      (.ok (some
        { real_name := .jstr ("B")
          submissions :=
            { easy := .jint 0, medium := .jint 5, hard := .jint 7,
              score := (fun _ _ _ => Json.jint 0) (Json.jint 0) (Json.jint 5) (Json.jint 7) } }), []) :=
  C10_missing_difficulty_defaults (fun _ _ _ => .jint 0) (.jstr ("B"))
    [Json.jobj [("difficulty", .jstr ("Medium")), ("count", .jint 5)],
     Json.jobj [("difficulty", .jstr ("Hard")), ("count", .jint 7)]]
    (.jint 5) (.jint 7)
    (by
      intro j hj
      fin_cases hj
      · exact ⟨Json.jstr ("Medium"), rfl, by decide⟩
      · exact ⟨Json.jstr ("Hard"), rfl, by decide⟩)
    rfl rfl
